import Mathlib

/-!
Shallow embedding of the authentication / session-lifecycle core and the
inventory-status logic of the `ecommerce-platform` repository.

Sources embedded here:
* `src/microservices/auth-service/src/controllers/auth.controller.ts`
  (register, login, logout, refreshToken, verifyEmail);
* the auth middleware file (authenticate, rateLimiter) — the Express
  middleware with the Redis blacklist check and the fixed-window limiter;
* `ProductService.updateInventory` from the product service.

Modelling conventions:
* Time is a `Nat` of seconds.  The Redis store is an association list of
  entries `(key, value, absolute-expiry)`; a key is live at `now` iff
  `now < expiry` (a key with TTL `t` set at `s` disappears at `s + t`,
  matching Redis `SETEX`).
* JWTs are modelled as a structure carrying the signed claims
  (`userId`, optional `email`, optional `role`, `iat`, `exp`).  `jwt.sign`
  with the HS256 secret is deterministic, so two tokens are equal exactly
  when their claims coincide; `jwt.verify` succeeds iff the token is not
  expired (`now < exp`) — every `Token` value stands for a blob signed with
  the service secret, so signature checking always passes on these values,
  and a verify failure lands in the controller's `catch` block.
* Redis key strings `refresh:<id>`, `verify:<id>`, `blacklist:<token>` are
  modelled by the inductive `RKey`, which is injective by construction just
  as the namespaced strings are.
* `bcrypt` lives outside the repository; `comparePassword` is modelled as
  equality of the presented secret with the registered secret (the
  hash/compare round trip of the pre-save hook and `comparePassword`).
* Mongo is a `List User` / `List Product`; `findOne`/`findById` are
  first-match lookups and `findByIdAndUpdate` is a map over the list.
-/

/-- A signed JWT: the claims it carries.  Access tokens have `email` and
`role` set, refresh tokens have neither, e-mail verification tokens have
only `email`. -/
structure Token where
  userId : String
  email : Option String
  role : Option String
  iat : Nat
  exp : Nat
deriving DecidableEq, Repr

/-- A user document of the `User` mongoose model (the fields the auth
controller reads).  `password` holds the registered secret (standing for
its bcrypt hash). -/
structure User where
  id : String
  email : String
  password : String
  firstName : String
  lastName : String
  isEmailVerified : Bool
  role : String
deriving DecidableEq, Repr

/-- The namespaced Redis keys used by the auth service:
`refresh:<userId>`, `verify:<userId>`, `blacklist:<token>`. -/
inductive RKey where
  | refreshK (userId : String)
  | verifyK (userId : String)
  | blacklistK (tok : Token)
deriving DecidableEq, Repr

/-- The Redis store of the auth service: entries `(key, value, expiry)`
with absolute expiry times; a later entry for the same key is shadowed by
the earlier one (`storeSetEx` removes the old entry first). -/
abbrev Store := List (RKey × Token × Nat)

/-- Remove every entry for key `k` (Redis `DEL`). -/
def storeDel : Store → RKey → Store
  | [], _ => []
  | (k1, v, ex) :: rest, k =>
    if k1 = k then storeDel rest k else (k1, v, ex) :: storeDel rest k

/-- Redis `SETEX key ttl v` at time `now`: the key now holds `v` and
expires at `now + ttl`. -/
def storeSetEx (st : Store) (now : Nat) (k : RKey) (ttl : Nat) (v : Token) : Store :=
  (k, v, now + ttl) :: storeDel st k

/-- Redis `GET` at time `now`: the stored value if the key is present and
not yet expired. -/
def storeGet : Store → Nat → RKey → Option Token
  | [], _, _ => none
  | (k1, v, ex) :: rest, now, k =>
    if k1 = k then (if now < ex then some v else none) else storeGet rest now k

theorem storeGet_del_same (st : Store) (k : RKey) (now : Nat) :
    storeGet (storeDel st k) now k = none := by
  induction st with
  | nil => rfl
  | cons e rest ih =>
    obtain ⟨k1, v, ex⟩ := e
    by_cases h : k1 = k <;> simp [storeDel, storeGet, h, ih]

theorem storeGet_del_other (st : Store) (k k2 : RKey) (now : Nat) (h : k2 ≠ k) :
    storeGet (storeDel st k) now k2 = storeGet st now k2 := by
  induction st with
  | nil => rfl
  | cons e rest ih =>
    obtain ⟨k1, v, ex⟩ := e
    by_cases h1 : k1 = k
    · subst h1
      simp [storeDel, storeGet, Ne.symm h, ih]
    · by_cases h2 : k1 = k2
      · subst h2
        simp [storeDel, storeGet, h, ih]
      · simp [storeDel, storeGet, h1, h2, ih]

theorem storeGet_setEx_same (st : Store) (now t : Nat) (k : RKey) (ttl : Nat) (v : Token) :
    storeGet (storeSetEx st now k ttl v) t k =
      if t < now + ttl then some v else none := by
  simp [storeSetEx, storeGet]

theorem storeGet_setEx_other (st : Store) (now t : Nat) (k k2 : RKey) (ttl : Nat)
    (v : Token) (h : k2 ≠ k) :
    storeGet (storeSetEx st now k ttl v) t k2 = storeGet st t k2 := by
  simp [storeSetEx, storeGet, Ne.symm h, storeGet_del_other st k k2 t h]

/-- `User.findOne({ email })`: first user whose e-mail matches. -/
def findByEmail : List User → String → Option User
  | [], _ => none
  | u :: rest, e => if u.email = e then some u else findByEmail rest e

/-- `User.findById(id)`: first user whose id matches. -/
def findById : List User → String → Option User
  | [], _ => none
  | u :: rest, i => if u.id = i then some u else findById rest i

/-- `User.findByIdAndUpdate(id, { isEmailVerified: true })`: set the flag
on the matching document (a no-op when the id is unknown). -/
def setVerified : List User → String → List User
  | [], _ => []
  | u :: rest, i =>
    if u.id = i then { u with isEmailVerified := true } :: rest
    else u :: setVerified rest i

/-- `user.comparePassword(candidate)`: bcrypt verification of the
presented secret against the stored digest, modelled as equality with the
registered secret. -/
def comparePassword (candidate stored : String) : Bool :=
  candidate = stored

/-- `jwt.sign({userId, email, role}, secret, {expiresIn: '7d'})` at `now`. -/
def signAccess (u : User) (now : Nat) : Token :=
  ⟨u.id, some u.email, some u.role, now, now + 7 * 86400⟩

/-- `jwt.sign({userId}, secret, {expiresIn: '30d'})` at `now`. -/
def signRefresh (u : User) (now : Nat) : Token :=
  ⟨u.id, none, none, now, now + 30 * 86400⟩

/-- `jwt.sign({userId, email}, secret, {expiresIn: '24h'})` at `now`. -/
def signVerification (userId email : String) (now : Nat) : Token :=
  ⟨userId, some email, none, now, now + 86400⟩

/-- The auth service's mutable state: the `User` collection and the Redis
store. -/
structure AuthState where
  users : List User
  store : Store
deriving DecidableEq, Repr

/-- Result of a controller: the HTTP status and message of the JSON error
response, or the status and payload of the success response. -/
inductive Outcome (α : Type) where
  | err (status : Nat) (message : String)
  | ok (status : Nat) (val : α)
deriving DecidableEq, Repr

/-- Result of the `authenticate` middleware: either an error response, or
`next()` with `req.user` set to the decoded token claims. -/
inductive AuthnResult where
  | reject (status : Nat) (message : String)
  | proceed (user : Token)
deriving DecidableEq, Repr

/-- The `authenticate` middleware: requires a bearer token, verifies it
(`catch` distinguishes `TokenExpiredError`), rejects tokens present under
`blacklist:<token>`, otherwise proceeds with the decoded claims. -/
def authenticate (store : Store) (now : Nat) (tok : Option Token) : AuthnResult :=
  match tok with
  | none => .reject 401 "No token provided"
  | some t =>
    if now < t.exp then
      match storeGet store now (RKey.blacklistK t) with
      | some _ => .reject 401 "Token has been invalidated"
      | none => .proceed t
    else .reject 401 "Token has expired"

/-- The `register` controller.  `newId` is the fresh Mongo `_id` of the
document being created; the schema defaults give `isEmailVerified = false`
and `role = "customer"`. -/
def register (st : AuthState) (now : Nat) (newId email password firstName lastName : String) :
    Outcome (User × Token × Token) × AuthState :=
  match findByEmail st.users email with
  | some _ => (.err 400 "User already exists", st)
  | none =>
    let user : User := ⟨newId, email, password, firstName, lastName, false, "customer"⟩
    let vTok := signVerification newId email now
    let s1 := storeSetEx st.store now (RKey.verifyK newId) 86400 vTok
    let access := signAccess user now
    let refreshTok := signRefresh user now
    let s2 := storeSetEx s1 now (RKey.refreshK newId) (30 * 86400) refreshTok
    (.ok 201 (user, access, refreshTok), ⟨st.users ++ [user], s2⟩)

/-- The `login` controller: unknown e-mail and wrong password both answer
401 "Invalid credentials"; an unverified e-mail answers 403; success
issues a fresh access+refresh pair and overwrites `refresh:<id>`. -/
def login (st : AuthState) (now : Nat) (email password : String) :
    Outcome (User × Token × Token) × AuthState :=
  match findByEmail st.users email with
  | none => (.err 401 "Invalid credentials", st)
  | some user =>
    if comparePassword password user.password then
      if user.isEmailVerified then
        let access := signAccess user now
        let refreshTok := signRefresh user now
        let s := storeSetEx st.store now (RKey.refreshK user.id) (30 * 86400) refreshTok
        (.ok 200 (user, access, refreshTok), ⟨st.users, s⟩)
      else (.err 403 "Please verify your email first", st)
    else (.err 401 "Invalid credentials", st)

/-- The `logout` controller body, reached after `authenticate` has set
`req.user`: it deletes `refresh:<userId>` and answers 200.  It writes no
`blacklist:` key. -/
def logoutHandler (st : AuthState) (userId : String) : Outcome Unit × AuthState :=
  (.ok 200 (), ⟨st.users, storeDel st.store (RKey.refreshK userId)⟩)

/-- The `/logout` route: `authenticate` middleware then the `logout`
controller, with the bearer access token as input. -/
def logoutRoute (st : AuthState) (now : Nat) (tok : Option Token) :
    Outcome Unit × AuthState :=
  match authenticate st.store now tok with
  | .reject s m => (.err s m, st)
  | .proceed u => logoutHandler st u.userId

/-- The `refreshToken` controller: missing body → 400; `jwt.verify`
failure lands in the `catch` (401 "Invalid refresh token"); a token that
differs from the value stored under `refresh:<userId>` (or a missing
stored value) → 401; a missing user document → 404; otherwise a new
access token only — the state is never written. -/
def refreshRoute (st : AuthState) (now : Nat) (tok : Option Token) :
    Outcome Token × AuthState :=
  match tok with
  | none => (.err 400 "Refresh token is required", st)
  | some t =>
    if now < t.exp then
      if storeGet st.store now (RKey.refreshK t.userId) = some t then
        match findById st.users t.userId with
        | none => (.err 404 "User not found", st)
        | some user => (.ok 200 (signAccess user now), st)
      else (.err 401 "Invalid refresh token", st)
    else (.err 401 "Invalid refresh token", st)

/-- The `verifyEmail` controller: missing query token → 400; `jwt.verify`
failure lands in the `catch` (400, same message as a mismatch); a token
that differs from the value stored under `verify:<userId>` → 400;
otherwise mark the user verified, delete the stored token, answer 200. -/
def verifyEmailRoute (st : AuthState) (now : Nat) (tok : Option Token) :
    Outcome Unit × AuthState :=
  match tok with
  | none => (.err 400 "Verification token is required", st)
  | some t =>
    if now < t.exp then
      if storeGet st.store now (RKey.verifyK t.userId) = some t then
        (.ok 200 (), ⟨setVerified st.users t.userId, storeDel st.store (RKey.verifyK t.userId)⟩)
      else (.err 400 "Invalid or expired verification token", st)
    else (.err 400 "Invalid or expired verification token", st)

/-- A rate-limiter Redis entry: the counter and its absolute expiry time
(`none` = no TTL yet, as after a bare `INCR` on a missing key). -/
abbrev RLEntry := Nat × Option Nat

/-- The rate limiter's Redis keyspace (`ratelimit:<ip>:<path>` keys). -/
abbrev RLStore := List (String × RLEntry)

/-- Is the entry live at `now`?  Entries without TTL never expire. -/
def rlLive (now : Nat) (e : RLEntry) : Bool :=
  match e.2 with
  | none => true
  | some ex => now < ex

/-- Remove every entry for key `k`. -/
def rlDel : RLStore → String → RLStore
  | [], _ => []
  | (k1, e) :: rest, k =>
    if k1 = k then rlDel rest k else (k1, e) :: rlDel rest k

/-- Overwrite the entry for key `k`. -/
def rlSet (st : RLStore) (k : String) (e : RLEntry) : RLStore :=
  (k, e) :: rlDel st k

/-- The entry under `k` regardless of expiry (first match). -/
def rlLookup : RLStore → String → Option RLEntry
  | [], _ => none
  | (k1, e) :: rest, k => if k1 = k then some e else rlLookup rest k

/-- The live entry under `k` at time `now`. -/
def rlGet (st : RLStore) (now : Nat) (k : String) : Option RLEntry :=
  match rlLookup st k with
  | some e => if rlLive now e then some e else none
  | none => none

/-- Redis `INCR` at time `now`: a missing (or expired) key becomes `1`
with no TTL; a live key is incremented, keeping its TTL.  Returns the new
counter value. -/
def rlIncr (st : RLStore) (now : Nat) (k : String) : Nat × RLStore :=
  match rlGet st now k with
  | some (c, ex) => (c + 1, rlSet st k (c + 1, ex))
  | none => (1, rlSet st k (1, none))

/-- Redis `EXPIRE key secs` at time `now`: set the TTL of a live key. -/
def rlExpire (st : RLStore) (now : Nat) (k : String) (secs : Nat) : RLStore :=
  match rlGet st now k with
  | some (c, _) => rlSet st k (c, some (now + secs))
  | none => st

/-- What the middleware does with the request. -/
inductive RLResult where
  | allowed
  | throttled
deriving DecidableEq, Repr

/-- The `rateLimiter(limit, windowMs)` middleware body for one request at
time `now` on key `k` (`ratelimit:<ip>:<path>`): `INCR`, set the TTL to
`windowMs / 1000` seconds when the counter is 1, answer 429 once the
counter strictly exceeds `limit`, otherwise `next()`. -/
def rateLimiter (limit windowMs : Nat) (st : RLStore) (now : Nat) (k : String) :
    RLResult × RLStore :=
  let r1 := rlIncr st now k
  let st2 := if r1.1 = 1 then rlExpire r1.2 now k (windowMs / 1000) else r1.2
  if r1.1 > limit then (.throttled, st2) else (.allowed, st2)

/-- A sequence of requests on key `k` at the given times, threading the
store. -/
def rateLimitRun (limit windowMs : Nat) (k : String) :
    List Nat → RLStore → List RLResult × RLStore
  | [], st => ([], st)
  | t :: ts, st =>
    let r1 := rateLimiter limit windowMs st t k
    let r2 := rateLimitRun limit windowMs k ts r1.2
    (r1.1 :: r2.1, r2.2)

/-- The rate limiter's backing store together with a reachability flag:
when `failing` is true every store operation raises, landing the
middleware in its `catch` block. -/
structure FStore where
  failing : Bool
  entries : RLStore
deriving DecidableEq, Repr

/-- `redisClient.incr` against a possibly unreachable store. -/
def fIncr (st : FStore) (now : Nat) (k : String) : Except Unit (Nat × RLStore) :=
  if st.failing then .error () else .ok (rlIncr st.entries now k)

/-- The `rateLimiter` middleware including its `try`/`catch`: a store
error is logged and the request proceeds (`next()`), i.e. fail-open. -/
def rateLimiterSafe (limit windowMs : Nat) (st : FStore) (now : Nat) (k : String) :
    RLResult × RLStore :=
  match fIncr st now k with
  | .error _ => (.allowed, st.entries)
  | .ok (requests, st1) =>
    let st2 := if requests = 1 then rlExpire st1 now k (windowMs / 1000) else st1
    if requests > limit then (.throttled, st2) else (.allowed, st2)

/-- A product document (the fields `updateInventory` touches).  `quantity`
is an `Int`: a `subtract` can drive it below zero. -/
structure Product where
  id : String
  sku : String
  quantity : Int
  status : String
deriving DecidableEq, Repr

/-- `Product.findById(id)`: first product whose id matches. -/
def findProduct : List Product → String → Option Product
  | [], _ => none
  | p :: rest, i => if p.id = i then some p else findProduct rest i

/-- Replace the document with id `i` by `q`. -/
def setProduct : List Product → String → Product → List Product
  | [], _, _ => []
  | p :: rest, i, q =>
    if p.id = i then q :: rest else p :: setProduct rest i q

/-- The status fix-up block of `updateInventory`: force `out_of_stock`
when the new quantity is `≤ 0`, and back to `active` when a product marked
`out_of_stock` has quantity `> 0`. -/
def stockFix (p1 : Product) : Product :=
  if p1.quantity ≤ 0 ∧ p1.status ≠ "out_of_stock" then
    { p1 with status := "out_of_stock" }
  else if 0 < p1.quantity ∧ p1.status = "out_of_stock" then
    { p1 with status := "active" }
  else p1

/-- `ProductService.updateInventory(productId, quantity, operation)`:
`findByIdAndUpdate` with `$inc: {quantity: ±quantity}` (returning the new
document), then the `stockFix` status update.  Returns the product as the
caller sees it, plus the collection. -/
def updateInventory (db : List Product) (productId : String) (quantity : Int)
    (operation : String) : Option Product × List Product :=
  match findProduct db productId with
  | none => (none, db)
  | some p =>
    let delta := if operation = "add" then quantity else -quantity
    let p2 := stockFix { p with quantity := p.quantity + delta }
    (some p2, setProduct db productId p2)

theorem findById_setVerified (us : List User) (i : String) :
    findById (setVerified us i) i =
      Option.map (fun u => { u with isEmailVerified := true }) (findById us i) := by
  induction us with
  | nil => rfl
  | cons u rest ih =>
    by_cases h : u.id = i <;> simp [setVerified, findById, h, ih]

/-- Fixture: a verified account. -/
def aliceV : User := ⟨"u1", "alice@shop.io", "pw1", "Alice", "V", true, "customer"⟩

/-- Fixture: an account whose e-mail is not verified. -/
def bobU : User := ⟨"u2", "bob@shop.io", "pw2", "Bob", "U", false, "customer"⟩

/-- Fixture: a two-account state with an empty Redis store. -/
def demoState : AuthState := ⟨[aliceV, bobU], []⟩

/-- C4: a login with an unknown e-mail and a login with a known e-mail but
a wrong password both fail with status 401 and the byte-identical message
"Invalid credentials"; a known e-mail with the right password but an
unverified address instead fails 403 "Please verify your email first". -/
theorem login_uniform_invalid_credentials (st : AuthState) (now : Nat)
    (email pw : String) (u : User) :
    (findByEmail st.users email = none →
      login st now email pw = (.err 401 "Invalid credentials", st)) ∧
    (findByEmail st.users email = some u → comparePassword pw u.password = false →
      login st now email pw = (.err 401 "Invalid credentials", st)) ∧
    (findByEmail st.users email = some u → comparePassword pw u.password = true →
      u.isEmailVerified = false →
      login st now email pw = (.err 403 "Please verify your email first", st)) := by
  refine ⟨?_, ?_, ?_⟩
  · intro h
    simp [login, h]
  · intro h hpw
    simp [login, h, hpw]
  · intro h hpw hv
    simp [login, h, hpw, hv]

/-- Witness for C4 on the fixture state. -/
theorem login_uniform_invalid_credentials_witness :
    login demoState 0 "ghost@shop.io" "zz" = (.err 401 "Invalid credentials", demoState) ∧
    login demoState 0 "alice@shop.io" "wrong" = (.err 401 "Invalid credentials", demoState) ∧
    login demoState 0 "bob@shop.io" "pw2" =
      (.err 403 "Please verify your email first", demoState) :=
  ⟨(login_uniform_invalid_credentials demoState 0 "ghost@shop.io" "zz" aliceV).1 (by decide),
   (login_uniform_invalid_credentials demoState 0 "alice@shop.io" "wrong" aliceV).2.1
     (by decide) (by decide),
   (login_uniform_invalid_credentials demoState 0 "bob@shop.io" "pw2" bobU).2.2
     (by decide) (by decide) (by decide)⟩

/-- C5: the refresh endpoint never writes state (the refresh token is not
rotated and no store key or user document changes), and a successful call
returns exactly a fresh access token for the stored subject. -/
theorem refresh_frame_and_access_only (st : AuthState) (now : Nat) (t : Token) :
    (refreshRoute st now (some t)).2 = st ∧
    (refreshRoute st now none).2 = st ∧
    (∀ v, (refreshRoute st now (some t)).1 = Outcome.ok 200 v →
      ∃ u, findById st.users t.userId = some u ∧ v = signAccess u now) := by
  refine ⟨?_, rfl, ?_⟩
  · simp only [refreshRoute]
    split
    · split
      · cases hfind : findById st.users t.userId <;> simp [hfind]
      · rfl
    · rfl
  · intro v h
    simp only [refreshRoute] at h
    split at h
    · split at h
      · cases hfind : findById st.users t.userId with
        | none => rw [hfind] at h; simp at h
        | some u =>
          rw [hfind] at h
          simp only [Outcome.ok.injEq] at h
          exact ⟨u, rfl, h.2.symm⟩
      · simp at h
    · simp at h

/-- Fixture: `aliceV` with her refresh token stored (expiry 2592000). -/
def refreshFix : AuthState :=
  ⟨[aliceV], [(RKey.refreshK "u1", signRefresh aliceV 0, 2592000)]⟩

/-- Witness for C5 on a successful refresh. -/
theorem refresh_frame_and_access_only_witness :
    (refreshRoute refreshFix 5 (some (signRefresh aliceV 0))).2 = refreshFix ∧
    ∃ u, findById refreshFix.users (signRefresh aliceV 0).userId = some u ∧
      signAccess aliceV 5 = signAccess u 5 :=
  ⟨(refresh_frame_and_access_only refreshFix 5 (signRefresh aliceV 0)).1,
   (refresh_frame_and_access_only refreshFix 5 (signRefresh aliceV 0)).2.2
     (signAccess aliceV 5) (by decide)⟩

/-- C8: the rate limiter fails open — when the backing store raises, the
`catch` logs and calls `next()`, so the request is allowed. -/
theorem rateLimiter_fail_open (limit windowMs : Nat) (st : FStore) (now : Nat)
    (k : String) (h : st.failing = true) :
    rateLimiterSafe limit windowMs st now k = (RLResult.allowed, st.entries) := by
  simp [rateLimiterSafe, fIncr, h]

/-- Witness for C8. -/
theorem rateLimiter_fail_open_witness :
    rateLimiterSafe 3 60000 ⟨true, []⟩ 0 "client:route" = (RLResult.allowed, []) :=
  rateLimiter_fail_open 3 60000 ⟨true, []⟩ 0 "client:route" rfl

/-- C9: a refresh token that verifies and exactly matches the stored value
but whose subject has no user document fails 404 "User not found" (not
401), and no access token is issued. -/
theorem refresh_user_not_found (st : AuthState) (now : Nat) (t : Token)
    (hexp : now < t.exp)
    (hstored : storeGet st.store now (RKey.refreshK t.userId) = some t)
    (huser : findById st.users t.userId = none) :
    refreshRoute st now (some t) = (.err 404 "User not found", st) := by
  simp [refreshRoute, hexp, hstored, huser]

/-- Fixture: a stored refresh token whose subject has no user document. -/
def ghostTok : Token := ⟨"ghost", none, none, 0, 2592000⟩

/-- Fixture state for `ghostTok`. -/
def ghostState : AuthState := ⟨[], [(RKey.refreshK "ghost", ghostTok, 2592000)]⟩

/-- Witness for C9. -/
theorem refresh_user_not_found_witness :
    refreshRoute ghostState 5 (some ghostTok) = (.err 404 "User not found", ghostState) :=
  refresh_user_not_found ghostState 5 ghostTok (by decide) (by decide) rfl

theorem stockFix_quantity (p1 : Product) : (stockFix p1).quantity = p1.quantity := by
  unfold stockFix
  split
  · rfl
  · split <;> rfl

theorem stockFix_oos_iff (p1 : Product) :
    (stockFix p1).status = "out_of_stock" ↔ (stockFix p1).quantity ≤ 0 := by
  unfold stockFix
  split
  · rename_i hc
    show ("out_of_stock" : String) = "out_of_stock" ↔ p1.quantity ≤ 0
    simpa using hc.1
  · rename_i hc1
    split
    · rename_i hc2
      obtain ⟨hpos, _⟩ := hc2
      show ("active" : String) = "out_of_stock" ↔ p1.quantity ≤ 0
      constructor
      · intro hs
        exact absurd hs (by decide)
      · intro hq
        exact absurd hq (by omega)
    · rename_i hc2
      constructor
      · intro hs
        by_contra hq
        exact hc2 ⟨by omega, hs⟩
      · intro hq
        by_contra hs
        exact hc1 ⟨hq, hs⟩

theorem stockFix_active (p1 : Product) (hoos : p1.status = "out_of_stock")
    (hpos : 0 < p1.quantity) : (stockFix p1).status = "active" := by
  unfold stockFix
  rw [if_neg fun hc => absurd hoos hc.2, if_pos ⟨hpos, hoos⟩]

/-- C10: after `updateInventory` the returned product's status is
`out_of_stock` exactly when its quantity is `≤ 0`; in particular a product
previously `out_of_stock` whose quantity becomes positive comes back as
`active`. -/
theorem updateInventory_status_invariant (db : List Product) (pid : String)
    (q : Int) (op : String) (p : Product)
    (h : (updateInventory db pid q op).1 = some p) :
    (p.status = "out_of_stock" ↔ p.quantity ≤ 0) ∧
    (∀ p0, findProduct db pid = some p0 → p0.status = "out_of_stock" →
      0 < p.quantity → p.status = "active") := by
  cases hf : findProduct db pid with
  | none => simp [updateInventory, hf] at h
  | some p0 =>
    simp only [updateInventory, hf, Option.some.injEq] at h
    subst h
    refine ⟨stockFix_oos_iff _, ?_⟩
    intro p1 hfind hoos hpos
    rw [Option.some.injEq] at hfind
    subst hfind
    rw [stockFix_quantity] at hpos
    exact stockFix_active _ hoos hpos

/-- Witness for C10: a product at quantity 3 in status `out_of_stock`
(a stale flag) receiving a subtract of 5 ends at quantity −2 in status
`out_of_stock`; the invariant holds of the returned product. -/
theorem updateInventory_status_invariant_witness :
    ((Product.mk "p1" "SKU" (-2) "out_of_stock").status = "out_of_stock" ↔
      (Product.mk "p1" "SKU" (-2) "out_of_stock").quantity ≤ 0) ∧
    (∀ p0, findProduct [Product.mk "p1" "SKU" 3 "active"] "p1" = some p0 →
      p0.status = "out_of_stock" →
      0 < (Product.mk "p1" "SKU" (-2) "out_of_stock").quantity →
      (Product.mk "p1" "SKU" (-2) "out_of_stock").status = "active") :=
  updateInventory_status_invariant [Product.mk "p1" "SKU" 3 "active"] "p1" 5 "subtract"
    (Product.mk "p1" "SKU" (-2) "out_of_stock") (by decide)

/-- C1 (divergence witnessed on the code): the `logout` controller only
deletes `refresh:<userId>` and never writes a `blacklist:` key, so after a
login at t=0 and a logout at t=10 presenting the issued access token, the
`authenticate` middleware at t=20 still accepts that token (its expiry is
intact and no blacklist entry exists) — it does not fail 401. -/
theorem logout_leaves_access_token_valid :
    (logoutRoute (login demoState 0 "alice@shop.io" "pw1").2 10
        (some (signAccess aliceV 0))).1 = Outcome.ok 200 () ∧
    storeGet ((logoutRoute (login demoState 0 "alice@shop.io" "pw1").2 10
        (some (signAccess aliceV 0))).2.store) 20
        (RKey.blacklistK (signAccess aliceV 0)) = none ∧
    20 < (signAccess aliceV 0).exp ∧
    authenticate ((logoutRoute (login demoState 0 "alice@shop.io" "pw1").2 10
        (some (signAccess aliceV 0))).2.store) 20 (some (signAccess aliceV 0)) =
      AuthnResult.proceed (signAccess aliceV 0) := by
  refine ⟨by decide, by decide, by decide, by decide⟩

/-- C6: e-mail verification is single-use — presenting the stored token
succeeds, marks the user verified and deletes the stored token, so a
second presentation (and any presented token not matching the stored
record) fails 400 "Invalid or expired verification token". -/
theorem verifyEmail_single_use (st : AuthState) (now now2 : Nat) (t : Token) (u : User)
    (hstored : storeGet st.store now (RKey.verifyK t.userId) = some t)
    (hexp : now < t.exp)
    (huser : findById st.users t.userId = some u) :
    (verifyEmailRoute st now (some t)).1 = Outcome.ok 200 () ∧
    findById (verifyEmailRoute st now (some t)).2.users t.userId =
      some { u with isEmailVerified := true } ∧
    storeGet (verifyEmailRoute st now (some t)).2.store now2 (RKey.verifyK t.userId) = none ∧
    (verifyEmailRoute (verifyEmailRoute st now (some t)).2 now2 (some t)).1 =
      Outcome.err 400 "Invalid or expired verification token" ∧
    (∀ t2 n3, storeGet st.store n3 (RKey.verifyK t2.userId) ≠ some t2 →
      (verifyEmailRoute st n3 (some t2)).1 =
        Outcome.err 400 "Invalid or expired verification token") := by
  have hroute : verifyEmailRoute st now (some t) =
      (Outcome.ok 200 (),
        ⟨setVerified st.users t.userId, storeDel st.store (RKey.verifyK t.userId)⟩) := by
    simp [verifyEmailRoute, hexp, hstored]
  refine ⟨?_, ?_, ?_, ?_, ?_⟩
  · rw [hroute]
  · rw [hroute]
    simp [findById_setVerified, huser]
  · rw [hroute]
    exact storeGet_del_same st.store (RKey.verifyK t.userId) now2
  · rw [hroute]
    simp only [verifyEmailRoute]
    split
    · rw [storeGet_del_same]
      simp
    · rfl
  · intro t2 n3 hne
    simp only [verifyEmailRoute, if_neg hne]
    split <;> rfl

/-- Fixture: `bobU` with his verification token stored. -/
def verifyFix : AuthState :=
  ⟨[bobU], [(RKey.verifyK "u2", signVerification "u2" "bob@shop.io" 0, 86400)]⟩

/-- Witness for C6 on the fixture state. -/
theorem verifyEmail_single_use_witness :
    (verifyEmailRoute verifyFix 10 (some (signVerification "u2" "bob@shop.io" 0))).1 =
      Outcome.ok 200 () ∧
    findById (verifyEmailRoute verifyFix 10
        (some (signVerification "u2" "bob@shop.io" 0))).2.users
        (signVerification "u2" "bob@shop.io" 0).userId =
      some { bobU with isEmailVerified := true } ∧
    (verifyEmailRoute (verifyEmailRoute verifyFix 10
        (some (signVerification "u2" "bob@shop.io" 0))).2 20
        (some (signVerification "u2" "bob@shop.io" 0))).1 =
      Outcome.err 400 "Invalid or expired verification token" ∧
    (verifyEmailRoute verifyFix 30 (some ghostTok)).1 =
      Outcome.err 400 "Invalid or expired verification token" :=
  ⟨(verifyEmail_single_use verifyFix 10 20 (signVerification "u2" "bob@shop.io" 0) bobU
      (by decide) (by decide) (by decide)).1,
   (verifyEmail_single_use verifyFix 10 20 (signVerification "u2" "bob@shop.io" 0) bobU
      (by decide) (by decide) (by decide)).2.1,
   (verifyEmail_single_use verifyFix 10 20 (signVerification "u2" "bob@shop.io" 0) bobU
      (by decide) (by decide) (by decide)).2.2.2.1,
   (verifyEmail_single_use verifyFix 10 20 (signVerification "u2" "bob@shop.io" 0) bobU
      (by decide) (by decide) (by decide)).2.2.2.2 ghostTok 30 (by decide)⟩

/-- C7: registering an e-mail that already has a record fails 400 with no
state mutation; registering a fresh e-mail creates the user unverified,
stores the verification token with a 24h TTL and the refresh token with a
30-day TTL under the new subject's keys, and answers 201 with the user and
an access+refresh pair. -/
theorem register_conflict_and_fresh (st : AuthState) (now : Nat)
    (newId email pw fn ln : String) :
    (∀ u0, findByEmail st.users email = some u0 →
      register st now newId email pw fn ln = (.err 400 "User already exists", st)) ∧
    (findByEmail st.users email = none →
      (register st now newId email pw fn ln).1 =
        Outcome.ok 201 (⟨newId, email, pw, fn, ln, false, "customer"⟩,
          signAccess ⟨newId, email, pw, fn, ln, false, "customer"⟩ now,
          signRefresh ⟨newId, email, pw, fn, ln, false, "customer"⟩ now) ∧
      (register st now newId email pw fn ln).2.users =
        st.users ++ [⟨newId, email, pw, fn, ln, false, "customer"⟩] ∧
      (∀ t, storeGet (register st now newId email pw fn ln).2.store t
          (RKey.verifyK newId) =
        if t < now + 86400 then some (signVerification newId email now) else none) ∧
      (∀ t, storeGet (register st now newId email pw fn ln).2.store t
          (RKey.refreshK newId) =
        if t < now + 30 * 86400 then
          some (signRefresh ⟨newId, email, pw, fn, ln, false, "customer"⟩ now)
        else none)) := by
  constructor
  · intro u0 h
    simp [register, h]
  · intro h
    have hreg : register st now newId email pw fn ln =
        (Outcome.ok 201 (⟨newId, email, pw, fn, ln, false, "customer"⟩,
            signAccess ⟨newId, email, pw, fn, ln, false, "customer"⟩ now,
            signRefresh ⟨newId, email, pw, fn, ln, false, "customer"⟩ now),
          ⟨st.users ++ [⟨newId, email, pw, fn, ln, false, "customer"⟩],
            storeSetEx
              (storeSetEx st.store now (RKey.verifyK newId) 86400
                (signVerification newId email now))
              now (RKey.refreshK newId) (30 * 86400)
              (signRefresh ⟨newId, email, pw, fn, ln, false, "customer"⟩ now)⟩) := by
      simp [register, h]
    refine ⟨by rw [hreg], by rw [hreg], ?_, ?_⟩
    · intro t
      rw [hreg]
      show storeGet (storeSetEx (storeSetEx st.store now (RKey.verifyK newId) 86400
          (signVerification newId email now)) now (RKey.refreshK newId) (30 * 86400)
          (signRefresh ⟨newId, email, pw, fn, ln, false, "customer"⟩ now)) t
          (RKey.verifyK newId) = _
      rw [storeGet_setEx_other _ _ _ _ _ _ _ (by simp), storeGet_setEx_same]
    · intro t
      rw [hreg]
      show storeGet (storeSetEx (storeSetEx st.store now (RKey.verifyK newId) 86400
          (signVerification newId email now)) now (RKey.refreshK newId) (30 * 86400)
          (signRefresh ⟨newId, email, pw, fn, ln, false, "customer"⟩ now)) t
          (RKey.refreshK newId) = _
      rw [storeGet_setEx_same]

/-- Witness for C7: conflict on Alice's e-mail, fresh registration for a
new e-mail (with the two TTL facts sampled inside and outside the
windows). -/
theorem register_conflict_and_fresh_witness :
    register demoState 0 "u9" "alice@shop.io" "x" "A" "V" =
      (.err 400 "User already exists", demoState) ∧
    (register demoState 0 "u9" "carol@shop.io" "pw9" "Carol" "W").1 =
      Outcome.ok 201 (⟨"u9", "carol@shop.io", "pw9", "Carol", "W", false, "customer"⟩,
        signAccess ⟨"u9", "carol@shop.io", "pw9", "Carol", "W", false, "customer"⟩ 0,
        signRefresh ⟨"u9", "carol@shop.io", "pw9", "Carol", "W", false, "customer"⟩ 0) ∧
    storeGet (register demoState 0 "u9" "carol@shop.io" "pw9" "Carol" "W").2.store 5
        (RKey.verifyK "u9") =
      (if (5:Nat) < 0 + 86400 then some (signVerification "u9" "carol@shop.io" 0) else none) ∧
    storeGet (register demoState 0 "u9" "carol@shop.io" "pw9" "Carol" "W").2.store 86400
        (RKey.verifyK "u9") =
      (if (86400:Nat) < 0 + 86400 then some (signVerification "u9" "carol@shop.io" 0) else none) ∧
    storeGet (register demoState 0 "u9" "carol@shop.io" "pw9" "Carol" "W").2.store 5
        (RKey.refreshK "u9") =
      (if (5:Nat) < 0 + 30 * 86400 then
        some (signRefresh ⟨"u9", "carol@shop.io", "pw9", "Carol", "W", false, "customer"⟩ 0)
      else none) :=
  ⟨(register_conflict_and_fresh demoState 0 "u9" "alice@shop.io" "x" "A" "V").1
      aliceV (by decide),
   ((register_conflict_and_fresh demoState 0 "u9" "carol@shop.io" "pw9" "Carol" "W").2
      (by decide)).1,
   ((register_conflict_and_fresh demoState 0 "u9" "carol@shop.io" "pw9" "Carol" "W").2
      (by decide)).2.2.1 5,
   ((register_conflict_and_fresh demoState 0 "u9" "carol@shop.io" "pw9" "Carol" "W").2
      (by decide)).2.2.1 86400,
   ((register_conflict_and_fresh demoState 0 "u9" "carol@shop.io" "pw9" "Carol" "W").2
      (by decide)).2.2.2 5⟩

/-- C2 counterexample: two consecutive logins for the same subject during
the same second issue byte-identical refresh tokens (`jwt.sign` is
deterministic and `iat`/`exp` have second granularity), so the value the
second login stores equals the first login's refresh token and a refresh
presenting the first token still succeeds — it does not fail 401. -/
theorem stale_refresh_same_second_counterexample :
    (refreshRoute (login (login demoState 0 "alice@shop.io" "pw1").2 0
        "alice@shop.io" "pw1").2 5 (some (signRefresh aliceV 0))).1 =
      Outcome.ok 200 (signAccess aliceV 5) := by decide

/-- C2 (amended): a refresh token is honored only if it exactly equals the
value currently stored under the subject's refresh key; and after two
consecutive logins at distinct timestamps (so the issued refresh tokens
differ), a refresh presenting the first login's refresh token fails 401,
because the second login overwrote the stored value. -/
theorem refresh_exact_match_and_rotation (st : AuthState) (t1 t2 t3 : Nat)
    (email pw : String) (u : User)
    (hfind : findByEmail st.users email = some u)
    (hpw : comparePassword pw u.password = true)
    (hver : u.isEmailVerified = true)
    (hlt : t1 < t2) :
    (∀ (s2 : AuthState) (now : Nat) (tok : Token) (stat : Nat) (v : Token),
      (refreshRoute s2 now (some tok)).1 = Outcome.ok stat v →
      storeGet s2.store now (RKey.refreshK tok.userId) = some tok) ∧
    (refreshRoute (login (login st t1 email pw).2 t2 email pw).2 t3
        (some (signRefresh u t1))).1 = Outcome.err 401 "Invalid refresh token" := by
  constructor
  · intro s2 now tok stat v h
    simp only [refreshRoute] at h
    split at h
    · split at h
      · assumption
      · simp at h
    · simp at h
  · have hlogin1 : (login st t1 email pw).2 =
        ⟨st.users, storeSetEx st.store t1 (RKey.refreshK u.id) (30 * 86400)
          (signRefresh u t1)⟩ := by
      simp [login, hfind, hpw, hver]
    have hlogin2 : (login (login st t1 email pw).2 t2 email pw).2 =
        ⟨st.users, storeSetEx
          (storeSetEx st.store t1 (RKey.refreshK u.id) (30 * 86400) (signRefresh u t1))
          t2 (RKey.refreshK u.id) (30 * 86400) (signRefresh u t2)⟩ := by
      rw [hlogin1]
      simp [login, hfind, hpw, hver]
    rw [hlogin2]
    simp only [refreshRoute]
    have hne : signRefresh u t2 ≠ signRefresh u t1 := by
      intro h
      have : t2 = t1 := congrArg Token.iat h
      omega
    have hget : storeGet
        (storeSetEx
          (storeSetEx st.store t1 (RKey.refreshK u.id) (30 * 86400) (signRefresh u t1))
          t2 (RKey.refreshK u.id) (30 * 86400) (signRefresh u t2)) t3
        (RKey.refreshK (signRefresh u t1).userId) ≠ some (signRefresh u t1) := by
      show storeGet _ t3 (RKey.refreshK u.id) ≠ some (signRefresh u t1)
      rw [storeGet_setEx_same]
      split
      · intro hcontr
        exact hne (Option.some.inj hcontr)
      · simp
    rw [if_neg hget]
    split <;> rfl

/-- Witness for C2 (amended): logins at t=0 and t=1, refresh with the
first token at t=5. -/
theorem refresh_exact_match_and_rotation_witness :
    storeGet refreshFix.store 5 (RKey.refreshK (signRefresh aliceV 0).userId) =
      some (signRefresh aliceV 0) ∧
    (refreshRoute (login (login demoState 0 "alice@shop.io" "pw1").2 1
        "alice@shop.io" "pw1").2 5 (some (signRefresh aliceV 0))).1 =
      Outcome.err 401 "Invalid refresh token" :=
  ⟨(refresh_exact_match_and_rotation demoState 0 1 5 "alice@shop.io" "pw1" aliceV
      (by decide) (by decide) (by decide) (by decide)).1 refreshFix 5
      (signRefresh aliceV 0) 200 (signAccess aliceV 5) (by decide),
   (refresh_exact_match_and_rotation demoState 0 1 5 "alice@shop.io" "pw1" aliceV
      (by decide) (by decide) (by decide) (by decide)).2⟩

theorem rlDel_idem (st : RLStore) (k : String) : rlDel (rlDel st k) k = rlDel st k := by
  induction st with
  | nil => rfl
  | cons e rest ih =>
    obtain ⟨k1, v⟩ := e
    by_cases h : k1 = k <;> simp [rlDel, h, ih]

theorem rlSet_rlSet (st : RLStore) (k : String) (a b : RLEntry) :
    rlSet (rlSet st k a) k b = rlSet st k b := by
  simp [rlSet, rlDel, rlDel_idem]

theorem rlLookup_rlSet_same (st : RLStore) (k : String) (e : RLEntry) :
    rlLookup (rlSet st k e) k = some e := by
  simp [rlSet, rlLookup]

theorem rlGet_rlSet_same (st : RLStore) (k : String) (e : RLEntry) (now : Nat) :
    rlGet (rlSet st k e) now k = if rlLive now e then some e else none := by
  simp [rlGet, rlLookup_rlSet_same]

theorem rateLimiter_fresh (limit windowMs : Nat) (st : RLStore) (k : String) (now : Nat)
    (h : rlGet st now k = none) :
    rateLimiter limit windowMs st now k =
      ((if 1 > limit then RLResult.throttled else RLResult.allowed),
        rlSet st k (1, some (now + windowMs / 1000))) := by
  have hincr : rlIncr st now k = (1, rlSet st k (1, none)) := by
    simp [rlIncr, h]
  have hexpire : rlExpire (rlSet st k (1, none)) now k (windowMs / 1000) =
      rlSet st k (1, some (now + windowMs / 1000)) := by
    simp [rlExpire, rlGet_rlSet_same, rlLive, rlSet_rlSet]
  simp only [rateLimiter, hincr, hexpire, if_pos rfl]
  split <;> rfl

theorem rateLimiter_inwindow (limit windowMs : Nat) (st0 : RLStore) (k : String)
    (c e now : Nat) (hc : 1 ≤ c) (hnow : now < e) :
    rateLimiter limit windowMs (rlSet st0 k (c, some e)) now k =
      ((if c + 1 > limit then RLResult.throttled else RLResult.allowed),
        rlSet st0 k (c + 1, some e)) := by
  have hincr : rlIncr (rlSet st0 k (c, some e)) now k =
      (c + 1, rlSet st0 k (c + 1, some e)) := by
    simp [rlIncr, rlGet_rlSet_same, rlLive, hnow, rlSet_rlSet]
  have hne : ¬ (c + 1 = 1) := by omega
  simp only [rateLimiter, hincr, if_neg hne]
  split <;> rfl

theorem rateLimitRun_inwindow (limit windowMs : Nat) (k : String) (ts : List Nat) :
    ∀ (st0 : RLStore) (c e : Nat), 1 ≤ c → (∀ t ∈ ts, t < e) →
    rateLimitRun limit windowMs k ts (rlSet st0 k (c, some e)) =
      ((List.range ts.length).map
        (fun i => if c + 1 + i > limit then RLResult.throttled else RLResult.allowed),
       rlSet st0 k (c + ts.length, some e)) := by
  induction ts with
  | nil =>
    intro st0 c e hc hts
    simp [rateLimitRun]
  | cons t ts ih =>
    intro st0 c e hc hts
    have h1 : t < e := hts t (List.mem_cons_self t ts)
    have hstep := rateLimiter_inwindow limit windowMs st0 k c e t hc h1
    have htail := ih st0 (c + 1) e (by omega) (fun x hx => hts x (List.mem_cons_of_mem t hx))
    simp only [rateLimitRun, hstep, htail]
    simp only [Prod.mk.injEq]
    constructor
    · rw [List.length_cons, List.range_succ_eq_map, List.map_cons, List.map_map]
      congr 1
      apply List.map_congr_left
      intro i hi
      have harith : c + 1 + 1 + i = c + 1 + (i + 1) := by omega
      rw [harith]
      exact rfl
    · have harith : c + 1 + ts.length = c + (ts.length + 1) := by omega
      rw [harith, List.length_cons]

/-- C3: fixed-window rate limiting per client+route key — the first hit in
a window sets the key's TTL, in-window hits increment the counter without
touching the TTL, hit number j+1 of a window is allowed exactly when
j+1 ≤ limit (so the first `limit` hits pass and later ones get 429), and
the spec's example limit=3/window=60s at t=0,1,2,3,61 answers
Allowed,Allowed,Allowed,Throttled,Allowed. -/
theorem rateLimiter_fixed_window (limit windowMs : Nat) (st : RLStore) (k : String)
    (t0 : Nat) (ts : List Nat) (c e now : Nat)
    (hfresh : rlGet st t0 k = none)
    (hts : ∀ t ∈ ts, t < t0 + windowMs / 1000) :
    rateLimiter limit windowMs st t0 k =
      ((if 1 > limit then RLResult.throttled else RLResult.allowed),
        rlSet st k (1, some (t0 + windowMs / 1000))) ∧
    (1 ≤ c → now < e → rateLimiter limit windowMs (rlSet st k (c, some e)) now k =
      ((if c + 1 > limit then RLResult.throttled else RLResult.allowed),
        rlSet st k (c + 1, some e))) ∧
    (rateLimitRun limit windowMs k (t0 :: ts) st).1 =
      (List.range (ts.length + 1)).map
        (fun j => if j + 1 > limit then RLResult.throttled else RLResult.allowed) ∧
    (rateLimitRun 3 60000 "client:route" [0, 1, 2, 3, 61] []).1 =
      [RLResult.allowed, RLResult.allowed, RLResult.allowed,
        RLResult.throttled, RLResult.allowed] := by
  refine ⟨rateLimiter_fresh limit windowMs st k t0 hfresh,
    fun hc hnow => rateLimiter_inwindow limit windowMs st k c e now hc hnow, ?_, by decide⟩
  have hrun : rateLimitRun limit windowMs k (t0 :: ts) st =
      ((if 1 > limit then RLResult.throttled else RLResult.allowed) ::
        (List.range ts.length).map
          (fun i => if 1 + 1 + i > limit then RLResult.throttled else RLResult.allowed),
       rlSet st k (1 + ts.length, some (t0 + windowMs / 1000))) := by
    simp only [rateLimitRun, rateLimiter_fresh limit windowMs st k t0 hfresh]
    rw [rateLimitRun_inwindow limit windowMs k ts st 1 (t0 + windowMs / 1000)
      (by omega) hts]
  rw [hrun]
  dsimp only
  rw [List.range_succ_eq_map, List.map_cons, List.map_map]
  congr 1
  apply List.map_congr_left
  intro i hi
  have harith : 1 + 1 + i = (i + 1) + 1 := by omega
  rw [harith]
  exact rfl

/-- Witness for C3: limit 3, window 60000ms, fresh key, hits at
t=0,1,2,3. -/
theorem rateLimiter_fixed_window_witness :
    (rateLimitRun 3 60000 "k" (0 :: [1, 2, 3]) []).1 =
      (List.range ([1, 2, 3].length + 1)).map
        (fun j => if j + 1 > 3 then RLResult.throttled else RLResult.allowed) ∧
    rateLimiter 3 60000 (rlSet [] "k" (1, some 60)) 5 "k" =
      ((if 1 + 1 > 3 then RLResult.throttled else RLResult.allowed),
        rlSet [] "k" (1 + 1, some 60)) :=
  ⟨(rateLimiter_fixed_window 3 60000 [] "k" 0 [1, 2, 3] 1 60 5
      (by decide) (by decide)).2.2.1,
   (rateLimiter_fixed_window 3 60000 [] "k" 0 [1, 2, 3] 1 60 5
      (by decide) (by decide)).2.1 (by decide) (by decide)⟩
